import Mathlib

/-!
Verification of the tianji insights warehouse SQL builders.

The definitions below are a shallow embedding of the TypeScript source in
`src/server/model/insights/warehouse*` (provided as src/unnamed/part_001):
the legacy long-format builder `WarehouseInsightsSqlBuilder` (warehouse.js),
the wide-table builder `WarehouseWideTableInsightsSqlBuilder` (wideTable.js),
the module-level application cache `getWarehouseApplications`, and the
`queryWarehouseEvents` dispatcher (index.js).

Prisma SQL fragments are modelled as a list of parts: literal text (template
text and `Prisma.raw` splices) and bound parameters (`${value}` holes).
Splicing a nested fragment concatenates part lists, exactly as `Prisma.sql`
inlines a nested `Sql` object and appends its values in order.

Timestamps are epoch milliseconds (`Nat`); `dayjs` calendar formatting is
embedded with the standard civil-from-days algorithm, with the server clock
taken to be UTC.  All translated functions keep their source names.
-/

/-- One part of a compiled SQL fragment: literal text (template text or a
`Prisma.raw` splice) or a bound parameter value. -/
inductive SqlPart where
  | lit (s : String)
  | param (v : String)
  deriving DecidableEq, Repr

/-- A compiled SQL fragment, mirroring `Prisma.Sql`: an ordered list of
literal pieces and bound parameters. -/
abbrev Sql := List SqlPart

/-- Rendered SQL text of a fragment, with `?` standing for each bound
parameter (as in `sql.sql` for the mysql driver). -/
def sqlText : Sql → String
  | [] => ""
  | .lit s :: rest => s ++ sqlText rest
  | .param _ :: rest => "?" ++ sqlText rest

/-- Bound parameter values of a fragment, in order (as in `sql.values`). -/
def sqlValues : Sql → List String
  | [] => []
  | .lit _ :: rest => sqlValues rest
  | .param v :: rest => v :: sqlValues rest

/-- Core of `Prisma.join`: fragments interleaved with a separator. -/
def prismaJoinCore (sep : String) : List Sql → Sql
  | [] => []
  | [s] => s
  | s :: rest => s ++ [.lit sep] ++ prismaJoinCore sep rest

/-- Embedding of `Prisma.join(items, separator, prefixText, suffixText)`. -/
def prismaJoin (items : List Sql) (sep pre post : String) : Sql :=
  [.lit pre] ++ prismaJoinCore sep items ++ [.lit post]

/-- The `MYSQL_DATE_FORMATS` lookup table (warehouse.js lines 366-372 and
the identical table in the wide-table module): `some format` when the unit
is a declared key, `none` otherwise (JS `unit in MYSQL_DATE_FORMATS`). -/
def mysqlDateFormats (unit : String) : Option String :=
  if unit = "minute" then some "%Y-%m-%d %H:%i:00"
  else if unit = "hour" then some "%Y-%m-%d %H:00:00"
  else if unit = "day" then some "%Y-%m-%d"
  else if unit = "month" then some "%Y-%m-01"
  else if unit = "year" then some "%Y-01-01"
  else none

/-- Milliseconds in one day. -/
def msPerDay : Nat := 86400000

/-- `dayjs(t).startOf('day')` on an epoch-millisecond instant (UTC clock). -/
def startOfDayMs (t : Nat) : Nat := t / msPerDay * msPerDay

/-- `dayjs(t).endOf('day')` on an epoch-millisecond instant (UTC clock). -/
def endOfDayMs (t : Nat) : Nat := startOfDayMs t + msPerDay - 1

/-- `dayjs(endAt).diff(startAt, 'day')`: the millisecond difference divided
by a day, truncated toward zero (dayjs `absFloor`). -/
def dayjsDiffDay (endAt startAt : Nat) : Int :=
  if startAt ≤ endAt then ((endAt - startAt) / msPerDay : Nat)
  else -(((startAt - endAt) / msPerDay : Nat))

/-- Civil date (year, month, day) of a day count since 1970-01-01
(Gregorian, proleptic; the standard days-to-civil algorithm). -/
def civilFromDays (z : Nat) : Nat × Nat × Nat :=
  let z' := z + 719468
  let era := z' / 146097
  let doe := z' % 146097
  let yoe := (doe - doe / 1460 + doe / 36524 - doe / 146096) / 365
  let y := yoe + era * 400
  let doy := doe - (365 * yoe + yoe / 4 - yoe / 100)
  let mp := (5 * doy + 2) / 153
  let d := doy - (153 * mp + 2) / 5 + 1
  let m := if mp < 10 then mp + 3 else mp - 9
  (if m ≤ 2 then y + 1 else y, m, d)

/-- Zero-padded two-digit decimal rendering. -/
def pad2 (n : Nat) : String :=
  if n < 10 then "0" ++ toString n else toString n

/-- Zero-padded four-digit decimal rendering (dayjs `YYYY`). -/
def pad4 (n : Nat) : String :=
  if n < 10 then "000" ++ toString n
  else if n < 100 then "00" ++ toString n
  else if n < 1000 then "0" ++ toString n
  else toString n

/-- `dayjs(t).format('YYYY-MM-DD')` on an epoch-millisecond instant. -/
def formatYMD (t : Nat) : String :=
  let c := civilFromDays (t / msPerDay)
  pad4 c.1 ++ "-" ++ pad2 c.2.1 ++ "-" ++ pad2 c.2.2

/-- `dayjs(t).utc().format('YYYY-MM-DD HH:mm:ss')` on an epoch-millisecond
instant. -/
def formatYMDHMS (t : Nat) : String :=
  let secs := t / 1000
  formatYMD t ++ " " ++ pad2 (secs / 3600 % 24) ++ ":" ++ pad2 (secs / 60 % 60)
    ++ ":" ++ pad2 (secs % 60)

/-- A requested metric (`insightsQuerySchema.metrics` entry): event name and
aggregation kind (`events` or `sessions`). -/
structure Metric where
  name : String
  math : String
  deriving DecidableEq, Repr

/-- One `customGroups` entry of a group: an operator and a literal value
that carve a named bucket out of the group's field. -/
structure CustomGroup where
  filterOperator : String
  filterValue : String
  deriving DecidableEq, Repr

/-- A requested group (`insightsQuerySchema.groups` entry). -/
structure GroupInfo where
  value : String
  type : String
  customGroups : Option (List CustomGroup)
  deriving DecidableEq, Repr

/-- The query's time window: epoch-millisecond bounds, bucket unit, and an
optional IANA timezone (the builders default it to UTC on destructuring). -/
structure TimeQuery where
  startAt : Nat
  endAt : Nat
  unit : String
  timezone : Option String := none
  deriving DecidableEq, Repr

/-- `eventTable` section of a configured long-table warehouse application
(`warehouseInsightsApplicationSchema`, warehouse.js lines 384-390).
`createdAtFieldType` is one of the `dateTypeSchema` strings, defaulted to
`timestampMs` by the zod schema. -/
structure EventTable where
  name : String
  eventNameField : String
  createdAtField : String
  createdAtFieldType : String := "timestampMs"
  dateBasedCreatedAtField : Option String := none
  deriving DecidableEq, Repr

/-- `eventParametersTable` section of a configured long-table warehouse
application (warehouse.js lines 391-401). -/
structure EventParametersTable where
  name : String
  paramsNameField : String
  paramsValueField : String
  paramsValueNumberField : Option String := none
  paramsValueStringField : Option String := none
  paramsValueDateField : Option String := none
  createdAtField : String
  createdAtFieldType : String := "timestampMs"
  dateBasedCreatedAtField : Option String := none
  deriving DecidableEq, Repr

/-- A configured warehouse application as parsed by
`warehouseInsightsApplicationSchema` (warehouse.js lines 381-406): a name,
a declared sub-type (`longTable` or `wideTable`, defaulted to `longTable`),
and the two table mappings. -/
structure WarehouseInsightsApplication where
  name : String
  type : String := "longTable"
  eventTable : EventTable
  eventParametersTable : EventParametersTable
  deriving DecidableEq, Repr

/-- A configured wide-table warehouse application.  Modelled from the spec:
the schema lives in the warehouse `utils.js` module, which is not under
src/; §3 of the spec declares `{name, tableName, createdAtField,
createdAtFieldType, dateBasedCreatedAtField?, distinctField, fields}`, and
the wide-table builder in src/ reads exactly these fields.  Registry
entries of either sub-type are represented with this record; the declared
`type` field (`longTable` or `wideTable`) distinguishes them. -/
structure WarehouseWideTableInsightsApplication where
  name : String
  type : String
  tableName : String
  createdAtField : String
  createdAtFieldType : String := "timestampMs"
  dateBasedCreatedAtField : Option String := none
  distinctField : String
  deriving DecidableEq, Repr

/-- Modelled from the spec: `InsightsSqlBuilder.buildCommonFilterQueryOperator`
(shared.js, not under src/).  §4.1: translates a (value type, operator,
operand) triple into a predicate over a column expression; string operators
are exact or wildcard-wrapped pattern matches, number/date operators are
direct comparisons, null checks are universal, and an unknown operator
fails (`UnsupportedOperator`).  The operand is modelled as a single bound
string value. -/
def buildCommonFilterQueryOperator (ty operator value : String)
    (valueField : Sql) : Except String Sql :=
  if operator = "equals" then
    .ok (valueField ++ [.lit " = ", .param value])
  else if operator = "notEquals" then
    .ok (valueField ++ [.lit " != ", .param value])
  else if operator = "contains" ∧ ty = "string" then
    .ok (valueField ++ [.lit " LIKE ", .param ("%" ++ value ++ "%")])
  else if operator = "notContains" ∧ ty = "string" then
    .ok (valueField ++ [.lit " NOT LIKE ", .param ("%" ++ value ++ "%")])
  else if operator = "greaterThan" ∧ (ty = "number" ∨ ty = "date") then
    .ok (valueField ++ [.lit " > ", .param value])
  else if operator = "lessThan" ∧ (ty = "number" ∨ ty = "date") then
    .ok (valueField ++ [.lit " < ", .param value])
  else if operator = "isNull" then
    .ok (valueField ++ [.lit " IS NULL"])
  else if operator = "isNotNull" then
    .ok (valueField ++ [.lit " IS NOT NULL"])
  else
    .error ("UnsupportedOperator: " ++ operator)

/-- Double-quoted `"table"."field"` identifier, as produced by the
`"${Prisma.raw(table)}"."${Prisma.raw(field)}"` template pieces. -/
def quoteQualified (table field : String) : String :=
  "\"" ++ table ++ "\".\"" ++ field ++ "\""

namespace Warehouse

/-- `WarehouseInsightsSqlBuilder.getApplication` (warehouse.js lines
434-446): linear lookup of the insight id among the configured
applications by name alone; missing name is an error. -/
def getApplication (apps : List WarehouseInsightsApplication)
    (insightId : String) : Except String WarehouseInsightsApplication :=
  match apps.find? (fun app => app.name == insightId) with
  | some application => .ok application
  | none => .error ("Application " ++ insightId ++ " not found")

/-- `enableDateBasedOptimizedEventTable` (warehouse.js lines 448-457): the
event table declares a date-based created-at column and the window spans at
least one day (`dayjs(endAt).diff(startAt, 'day') >= 1`). -/
def enableDateBasedOptimizedEventTable (et : EventTable) (t : TimeQuery) : Bool :=
  et.dateBasedCreatedAtField.isSome && decide (1 ≤ dayjsDiffDay t.endAt t.startAt)

/-- `buildOptimizedDateRangeQuery` (warehouse.js lines 552-593): BETWEEN
predicate over either the date-based column (day strings) or the raw
created-at column (bounds rendered per its storage encoding). -/
def buildOptimizedDateRangeQuery (et : EventTable) (t : TimeQuery) : Sql :=
  let enabled := enableDateBasedOptimizedEventTable et t
  let ty := et.createdAtFieldType
  let field :=
    if enabled then
      quoteQualified et.name (et.dateBasedCreatedAtField.getD et.createdAtField)
    else
      quoteQualified et.name et.createdAtField
  let startTime :=
    if enabled then formatYMD (startOfDayMs t.startAt)
    else if ty = "timestamp" then toString (t.startAt / 1000)
    else if ty = "date" then formatYMD (startOfDayMs t.startAt)
    else if ty = "datetime" then formatYMDHMS t.startAt
    else toString t.startAt
  let endTime :=
    if enabled then formatYMD (endOfDayMs t.endAt)
    else if ty = "timestamp" then toString (t.endAt / 1000)
    else if ty = "date" then formatYMD (endOfDayMs t.endAt)
    else if ty = "datetime" then formatYMDHMS t.endAt
    else toString t.endAt
  [.lit field, .lit " BETWEEN ", .param startTime, .lit " AND ", .param endTime]

/-- `getDateQuery` (warehouse.js lines 512-550): timezone-aware
`DATE_FORMAT(CONVERT_TZ(...))` bucket expression; rejects a unit missing
from `MYSQL_DATE_FORMATS`, and switches the inner time expression on the
column's storage encoding with a `timestampMs` default branch. -/
def getDateQuery (field unit timezone ty : String) : Except String Sql :=
  match mysqlDateFormats unit with
  | none => .error ("Invalid date unit: " ++ unit)
  | some format =>
    let timeExpression : Sql :=
      if ty = "timestamp" then
        [.lit "FROM_UNIXTIME(", .lit field, .lit ")"]
      else if ty = "timestampMs" then
        [.lit "FROM_UNIXTIME(", .lit field, .lit " / 1000)"]
      else if ty = "date" then
        [.lit "STR_TO_DATE(", .lit field, .lit ", '%Y-%m-%d')"]
      else if ty = "datetime" then
        [.lit "STR_TO_DATE(", .lit field, .lit ", '%Y-%m-%d %H:%i:%s')"]
      else
        [.lit "FROM_UNIXTIME(", .lit field, .lit " / 1000)"]
    .ok ([.lit "DATE_FORMAT(CONVERT_TZ("] ++ timeExpression ++
      [.lit ", '+00:00', ", .param timezone, .lit "), '", .lit format, .lit "')"])

/-- `buildOptimizedDateQuerySql` (warehouse.js lines 644-666): when the
date-based optimization is engaged the bucket is a bare `DATE_FORMAT` over
the date-based column (the format looked up without the validity check; a
missing unit yields the JS string `undefined`); otherwise it defers to
`getDateQuery` on the raw created-at column. -/
def buildOptimizedDateQuerySql (et : EventTable) (t : TimeQuery) :
    Except String Sql :=
  let timezone := t.timezone.getD "UTC"
  if enableDateBasedOptimizedEventTable et t ∧ et.dateBasedCreatedAtField.isSome then
    let field := quoteQualified et.name (et.dateBasedCreatedAtField.getD "")
    let format := (mysqlDateFormats t.unit).getD "undefined"
    .ok [.lit "DATE_FORMAT(", .lit field, .lit ", '", .lit format, .lit "') date"]
  else
    (getDateQuery (quoteQualified et.name et.createdAtField) t.unit timezone
      et.createdAtFieldType).map (fun s => s ++ [.lit " date"])

/-- The per-metric lambda of `buildSelectQueryArr` (warehouse.js lines
676-686): `math=events` yields `count(1)` for the `$all_event` sentinel or
a `sum(case ...)` for a named event; any other math yields `null`. -/
def selectItem (et : EventTable) (item : Metric) : Option Sql :=
  if item.math = "events" then
    if item.name = "$all_event" then
      some [.lit "count(1) as \"$all_event\""]
    else
      some ([.lit "sum(case WHEN \"", .lit et.name, .lit "\".\"",
        .lit et.eventNameField, .lit "\" = ", .param item.name,
        .lit " THEN 1 ELSE 0 END) as ", .lit ("\"" ++ item.name ++ "\"")])
  else
    none

/-- `buildSelectQueryArr` (warehouse.js lines 672-687). -/
def buildSelectQueryArr (et : EventTable) (metrics : List Metric) :
    List (Option Sql) :=
  metrics.map (selectItem et)

/-- The per-metric event-name disjunct of `buildWhereQueryArr` (warehouse.js
lines 724-730): the `$all_event` sentinel contributes `1 = 1`, a named
metric an equality on the event-name column. -/
def eventNameDisjunct (et : EventTable) (item : Metric) : Sql :=
  if item.name = "$all_event" then
    [.lit "1 = 1"]
  else
    [.lit "\"", .lit et.name, .lit "\".\"", .lit et.eventNameField,
      .lit "\" = ", .param item.name]

/-- `buildWhereQueryArr` (warehouse.js lines 714-738): the date-range
predicate followed by the OR-joined event-name disjunction. -/
def buildWhereQueryArr (et : EventTable) (t : TimeQuery)
    (metrics : List Metric) : List Sql :=
  [buildOptimizedDateRangeQuery et t,
    prismaJoin (metrics.map (eventNameDisjunct et)) " OR " "(" ")"]

/-- `getValueField` (warehouse.js lines 482-495): the parameters-table value
column matching the filter's declared type, falling back to the generic
value column when the typed column is not configured. -/
def getValueField (ept : EventParametersTable) (ty : String) : Sql :=
  let chosen :=
    if ty = "number" then ept.paramsValueNumberField.getD ept.paramsValueField
    else if ty = "string" then ept.paramsValueStringField.getD ept.paramsValueField
    else if ty = "date" then ept.paramsValueDateField.getD ept.paramsValueField
    else ept.paramsValueField
  [.lit (quoteQualified ept.name chosen)]

/-- `buildFilterQueryOperator` (warehouse.js lines 497-510): the common
operator compiler applied to the typed value column. -/
def buildFilterQueryOperator (ept : EventParametersTable)
    (ty operator value : String) : Except String Sql :=
  buildCommonFilterQueryOperator ty operator value (getValueField ept ty)

/-- The inner `customGroups` loop of `buildGroupSelectQueryArr`
(warehouse.js lines 698-708): one projection per entry, aliased
`"%value|operator|filterValue"`. -/
def customCols (ept : EventParametersTable) (g : GroupInfo) :
    List CustomGroup → Except String (List Sql)
  | [] => .ok []
  | cg :: rest =>
    match buildFilterQueryOperator ept g.type cg.filterOperator cg.filterValue with
    | .error e => .error e
    | .ok pred =>
      match customCols ept g rest with
      | .error e => .error e
      | .ok tail =>
        .ok ((pred ++ [.lit " as \"%",
          .lit (g.value ++ "|" ++ cg.filterOperator ++ "|" ++ cg.filterValue),
          .lit "\""]) :: tail)

/-- `buildGroupSelectQueryArr` (warehouse.js lines 689-712): a group without
`customGroups` projects its value column aliased `"%value"`; a group with
`customGroups` expands into one projection per entry; a group with an empty
`customGroups` list contributes nothing. -/
def buildGroupSelectQueryArr (ept : EventParametersTable) :
    List GroupInfo → Except String (List Sql)
  | [] => .ok []
  | g :: rest =>
    match g.customGroups with
    | none =>
      match buildGroupSelectQueryArr ept rest with
      | .error e => .error e
      | .ok tail =>
        .ok ((getValueField ept g.type ++
          [.lit " as \"%", .lit g.value, .lit "\""]) :: tail)
    | some cgs =>
      match customCols ept g cgs with
      | .error e => .error e
      | .ok cols =>
        match buildGroupSelectQueryArr ept rest with
        | .error e => .error e
        | .ok tail => .ok (cols ++ tail)

end Warehouse

namespace WideTable

/-- `WarehouseWideTableInsightsSqlBuilder.getApplication` (wideTable.js
lines 39-51): linear lookup by name and declared sub-type `wideTable`. -/
def getApplication (apps : List WarehouseWideTableInsightsApplication)
    (insightId : String) :
    Except String WarehouseWideTableInsightsApplication :=
  match apps.find? (fun app => app.name == insightId && app.type == "wideTable") with
  | some application => .ok application
  | none => .error ("Application " ++ insightId ++ " not found")

/-- `enableDateBasedOptimizedEventTable` (wideTable.js lines 53-62). -/
def enableDateBasedOptimizedEventTable
    (app : WarehouseWideTableInsightsApplication) (t : TimeQuery) : Bool :=
  app.dateBasedCreatedAtField.isSome && decide (1 ≤ dayjsDiffDay t.endAt t.startAt)

/-- `buildOptimizedDateRangeQuery` (wideTable.js lines 64-105): same shape
as the long-table variant but with a bare double-quoted column name. -/
def buildOptimizedDateRangeQuery (app : WarehouseWideTableInsightsApplication)
    (t : TimeQuery) : Sql :=
  let enabled := enableDateBasedOptimizedEventTable app t
  let ty := app.createdAtFieldType
  let field :=
    if enabled then
      "\"" ++ (app.dateBasedCreatedAtField.getD app.createdAtField) ++ "\""
    else
      "\"" ++ app.createdAtField ++ "\""
  let startTime :=
    if enabled then formatYMD (startOfDayMs t.startAt)
    else if ty = "timestamp" then toString (t.startAt / 1000)
    else if ty = "date" then formatYMD (startOfDayMs t.startAt)
    else if ty = "datetime" then formatYMDHMS t.startAt
    else toString t.startAt
  let endTime :=
    if enabled then formatYMD (endOfDayMs t.endAt)
    else if ty = "timestamp" then toString (t.endAt / 1000)
    else if ty = "date" then formatYMD (endOfDayMs t.endAt)
    else if ty = "datetime" then formatYMDHMS t.endAt
    else toString t.endAt
  [.lit field, .lit " BETWEEN ", .param startTime, .lit " AND ", .param endTime]

/-- `getDateQuery` (wideTable.js lines 111-149): textually identical to the
long-table variant's bucket compiler. -/
def getDateQuery (field unit timezone ty : String) : Except String Sql :=
  match mysqlDateFormats unit with
  | none => .error ("Invalid date unit: " ++ unit)
  | some format =>
    let timeExpression : Sql :=
      if ty = "timestamp" then
        [.lit "FROM_UNIXTIME(", .lit field, .lit ")"]
      else if ty = "timestampMs" then
        [.lit "FROM_UNIXTIME(", .lit field, .lit " / 1000)"]
      else if ty = "date" then
        [.lit "STR_TO_DATE(", .lit field, .lit ", '%Y-%m-%d')"]
      else if ty = "datetime" then
        [.lit "STR_TO_DATE(", .lit field, .lit ", '%Y-%m-%d %H:%i:%s')"]
      else
        [.lit "FROM_UNIXTIME(", .lit field, .lit " / 1000)"]
    .ok ([.lit "DATE_FORMAT(CONVERT_TZ("] ++ timeExpression ++
      [.lit ", '+00:00', ", .param timezone, .lit "), '", .lit format, .lit "')"])

/-- `buildOptimizedDateQuerySql` (wideTable.js lines 151-173): same split as
the long-table variant; the optimized branch looks the format up without
the validity check (a missing unit yields the JS string `undefined`). -/
def buildOptimizedDateQuerySql (app : WarehouseWideTableInsightsApplication)
    (t : TimeQuery) : Except String Sql :=
  let timezone := t.timezone.getD "UTC"
  if enableDateBasedOptimizedEventTable app t ∧ app.dateBasedCreatedAtField.isSome then
    let field := "\"" ++ app.dateBasedCreatedAtField.getD "" ++ "\""
    let format := (mysqlDateFormats t.unit).getD "undefined"
    .ok [.lit "DATE_FORMAT(", .lit field, .lit ", '", .lit format, .lit "') date"]
  else
    (getDateQuery ("\"" ++ app.createdAtField ++ "\"") t.unit timezone
      app.createdAtFieldType).map (fun s => s ++ [.lit " date"])

/-- The per-metric lambda of `buildSelectQueryArr` (wideTable.js lines
183-199): `events` counts rows (total or of the named column), `sessions`
counts distinct values of the declared `distinctField`, restricted by a
CASE on the metric-name column for a named metric; other math yields
`null`. -/
def selectItem (app : WarehouseWideTableInsightsApplication) (item : Metric) :
    Option Sql :=
  if item.math = "events" then
    if item.name = "$all_event" then
      some [.lit "count(1) as \"$all_event\""]
    else
      some [.lit "count(\"", .lit item.name, .lit "\") as \"", .lit item.name,
        .lit "\""]
  else if item.math = "sessions" then
    if item.name = "$all_event" then
      some [.lit "count(distinct \"", .lit app.distinctField,
        .lit "\") as \"$all_event\""]
    else
      some [.lit "count(distinct case WHEN \"", .lit item.name, .lit "\" = ",
        .param item.name, .lit " THEN \"", .lit app.distinctField,
        .lit "\" END) as ", .lit ("\"" ++ item.name ++ "\"")]
  else
    none

/-- `buildSelectQueryArr` (wideTable.js lines 179-200). -/
def buildSelectQueryArr (app : WarehouseWideTableInsightsApplication)
    (metrics : List Metric) : List (Option Sql) :=
  metrics.map (selectItem app)

/-- The inner `customGroups` loop of `buildGroupSelectQueryArr`
(wideTable.js lines 229-239): the common operator compiler over the
double-quoted group column, aliased `"%value|operator|filterValue"`. -/
def customCols (g : GroupInfo) : List CustomGroup → Except String (List Sql)
  | [] => .ok []
  | cg :: rest =>
    match buildCommonFilterQueryOperator g.type cg.filterOperator cg.filterValue
        [.lit ("\"" ++ g.value ++ "\"")] with
    | .error e => .error e
    | .ok pred =>
      match customCols g rest with
      | .error e => .error e
      | .ok tail =>
        .ok ((pred ++ [.lit " as \"%",
          .lit (g.value ++ "|" ++ cg.filterOperator ++ "|" ++ cg.filterValue),
          .lit "\""]) :: tail)

/-- `buildGroupSelectQueryArr` (wideTable.js lines 220-245): a group without
`customGroups` projects the raw group value aliased `"%value"`; a group
with `customGroups` expands into one projection per entry. -/
def buildGroupSelectQueryArr : List GroupInfo → Except String (List Sql)
  | [] => .ok []
  | g :: rest =>
    match g.customGroups with
    | none =>
      match buildGroupSelectQueryArr rest with
      | .error e => .error e
      | .ok tail =>
        .ok (([.lit g.value, .lit " as \"%", .lit g.value, .lit "\""]) :: tail)
    | some cgs =>
      match customCols g cgs with
      | .error e => .error e
      | .ok cols =>
        match buildGroupSelectQueryArr rest with
        | .error e => .error e
        | .ok tail => .ok (cols ++ tail)

end WideTable

/-- State of the module-level `applications` cache of warehouse.js (line
408): the cached parse result, plus a count of how many times the
configuration string has been parsed (for stating the parse-once
property). -/
structure AppsCacheState where
  applications : Option (List WarehouseInsightsApplication)
  parseCount : Nat
  deriving Repr

/-- `getWarehouseApplications` (warehouse.js lines 409-417): returns the
cached list when present; otherwise parses the configuration string and
caches the result.  The zod/JSON parsing step
(`warehouseInsightsApplicationSchema.array().parse(JSON.parse(...))`) is
abstracted as the `parse` argument, which may fail; a failed parse leaves
the cache empty (in JS the assignment never happens when parse throws). -/
def getWarehouseApplications
    (parse : String → Except String (List WarehouseInsightsApplication))
    (config : String) (st : AppsCacheState) :
    Except String (List WarehouseInsightsApplication) × AppsCacheState :=
  match st.applications with
  | some apps => (.ok apps, st)
  | none =>
    match parse config with
    | .ok apps => (.ok apps, ⟨some apps, st.parseCount + 1⟩)
    | .error e => (.error e, ⟨none, st.parseCount + 1⟩)

/-- A sequence of `getWarehouseApplications` calls, each with its own parse
function and configuration string, threaded through the cache state. -/
def runWarehouseApplicationCalls :
    List ((String → Except String (List WarehouseInsightsApplication)) × String) →
    AppsCacheState →
    List (Except String (List WarehouseInsightsApplication)) × AppsCacheState
  | [], st => ([], st)
  | (p, c) :: rest, st =>
    let r := getWarehouseApplications p c st
    let rs := runWarehouseApplicationCalls rest r.2
    (r.1 :: rs.1, rs.2)

/-- Which concrete builder `queryWarehouseEvents` dispatches to. -/
inductive EventsBuilderKind where
  | wideTable
  | longTable
  deriving DecidableEq, Repr

/-- Modelled from the spec: `findWarehouseApplication` (the warehouse
`utils.js`, not under src/).  §4.4 describes the registry as a linear
lookup over the configured application list; the caller in src/ inspects
the returned application's declared sub-type itself, so the lookup is by
name, returning `none` when no application matches. -/
def findWarehouseApplication
    (apps : List WarehouseWideTableInsightsApplication) (insightId : String) :
    Option WarehouseWideTableInsightsApplication :=
  apps.find? (fun app => app.name == insightId)

/-- `queryWarehouseEvents` (index.js lines 7-23): resolves the insight id
and dispatches to the wide-table builder exactly when the resolved
application's declared sub-type is `wideTable` (`application?.type ===
'wideTable'`), and to the long-table builder otherwise, including when no
application was resolved at all. -/
def queryWarehouseEvents (apps : List WarehouseWideTableInsightsApplication)
    (insightId : String) : EventsBuilderKind :=
  let application := findWarehouseApplication apps insightId
  if (match application with
      | some app => app.type == "wideTable"
      | none => false) then
    .wideTable
  else
    .longTable

/-- Decodes the column alias out of a projection fragment produced by the
group-select builders: the templates end with the literal pieces
`... as "%`, the raw alias body, and the closing quote, so the alias is the
percent prefix re-attached to the second-to-last literal. -/
def aliasOf (s : Sql) : String :=
  match s.reverse with
  | .lit _ :: .lit body :: _ => "%" ++ body
  | _ => ""

/-- The alias convention of spec §3, stated independently of the builders:
one `%value` alias for a plain group, one `%value|operator|filterValue`
alias per `customGroups` entry. -/
def groupAliases : List GroupInfo → List String
  | [] => []
  | g :: rest =>
    (match g.customGroups with
      | none => ["%" ++ g.value]
      | some cgs =>
        cgs.map (fun cg =>
          "%" ++ g.value ++ "|" ++ cg.filterOperator ++ "|" ++ cg.filterValue)) ++
    groupAliases rest

/-- Rendering distributes over fragment concatenation. -/
theorem sqlText_append (a b : Sql) : sqlText (a ++ b) = sqlText a ++ sqlText b := by
  induction a with
  | nil => simp [sqlText]
  | cons p rest ih => cases p <;> simp [sqlText, ih, String.append_assoc]

/-- Parameter collection distributes over fragment concatenation. -/
theorem sqlValues_append (a b : Sql) :
    sqlValues (a ++ b) = sqlValues a ++ sqlValues b := by
  induction a with
  | nil => simp [sqlValues]
  | cons p rest ih => cases p <;> simp [sqlValues, ih]

/-- The day difference is at least one exactly when the window covers a
full day of milliseconds. -/
theorem one_le_dayjsDiffDay_iff (e s : Nat) :
    1 ≤ dayjsDiffDay e s ↔ s + msPerDay ≤ e := by
  unfold dayjsDiffDay
  split
  · rename_i hle
    have hd : 1 ≤ (e - s) / msPerDay ↔ msPerDay ≤ e - s :=
      Nat.one_le_div_iff (by norm_num [msPerDay])
    constructor
    · intro h1
      have h2 : 1 ≤ (e - s) / msPerDay := by exact_mod_cast h1
      have := hd.mp h2
      omega
    · intro h1
      have h2 : msPerDay ≤ e - s := by omega
      exact_mod_cast hd.mpr h2
  · rename_i hgt
    constructor
    · intro h1
      exfalso
      have : (0 : Int) ≤ ((s - e) / msPerDay : Nat) := Int.ofNat_nonneg _
      omega
    · intro h1
      exfalso
      omega

/-- A long-table event table fixture with a declared date-based column
(mirrors the application shape of the builder test file). -/
def et0 : EventTable :=
  { name := "events", eventNameField := "event_name",
    createdAtField := "event_timestamp",
    dateBasedCreatedAtField := some "event_date" }

/-- Event parameters table fixture. -/
def ept0 : EventParametersTable :=
  { name := "event_parameters", paramsNameField := "event_param_key",
    paramsValueField := "event_param_value",
    createdAtField := "event_timestamp" }

/-- A two-day window (2025-08-01 to 2025-08-03, UTC) at day granularity. -/
def t0 : TimeQuery :=
  { startAt := 1754006400000, endAt := 1754179200000, unit := "day",
    timezone := some "UTC" }

/-- The same two-day window requested at the undeclared unit `week`. -/
def tWeek : TimeQuery :=
  { startAt := 1754006400000, endAt := 1754179200000, unit := "week",
    timezone := some "UTC" }

/-- A configured wide-table application fixture. -/
def app0 : WarehouseWideTableInsightsApplication :=
  { name := "wide", type := "wideTable", tableName := "events_wide",
    createdAtField := "event_timestamp",
    dateBasedCreatedAtField := some "event_date",
    distinctField := "user_id" }

/-- A configured application carrying the declared sub-type `wideTable`, as
`warehouseInsightsApplicationSchema` admits. -/
def whApp0 : WarehouseInsightsApplication :=
  { name := "test", type := "wideTable", eventTable := et0,
    eventParametersTable := ept0 }

/-- C1: against a schema declaring a date-based created-at column, the
long-table builder switches both the BETWEEN range predicate and the date
bucket expression to that column exactly when the window spans at least one
full day; the optimized bounds are `YYYY-MM-DD` day strings of the window's
start-of-day and end-of-day, and the optimized bucket applies the unit's
format directly with no `CONVERT_TZ`, while the non-optimized path keeps
the raw created-at column and the `CONVERT_TZ`-based `getDateQuery`. -/
theorem c1_date_based_optimization
    (et : EventTable) (dbf : String) (t : TimeQuery) (fmt : String)
    (h1 : et.dateBasedCreatedAtField = some dbf)
    (h2 : mysqlDateFormats t.unit = some fmt) :
    (Warehouse.enableDateBasedOptimizedEventTable et t = true ↔
      t.startAt + msPerDay ≤ t.endAt) ∧
    (t.startAt + msPerDay ≤ t.endAt →
      Warehouse.buildOptimizedDateRangeQuery et t =
        [.lit (quoteQualified et.name dbf), .lit " BETWEEN ",
          .param (formatYMD (startOfDayMs t.startAt)), .lit " AND ",
          .param (formatYMD (endOfDayMs t.endAt))] ∧
      Warehouse.buildOptimizedDateQuerySql et t =
        .ok [.lit "DATE_FORMAT(", .lit (quoteQualified et.name dbf),
          .lit ", '", .lit fmt, .lit "') date"]) ∧
    (¬ t.startAt + msPerDay ≤ t.endAt →
      (∃ s e : String,
        Warehouse.buildOptimizedDateRangeQuery et t =
          [.lit (quoteQualified et.name et.createdAtField), .lit " BETWEEN ",
            .param s, .lit " AND ", .param e]) ∧
      Warehouse.buildOptimizedDateQuerySql et t =
        (Warehouse.getDateQuery (quoteQualified et.name et.createdAtField)
          t.unit (t.timezone.getD "UTC") et.createdAtFieldType).map
          (fun s => s ++ [.lit " date"])) := by
  have henable : Warehouse.enableDateBasedOptimizedEventTable et t = true ↔
      t.startAt + msPerDay ≤ t.endAt := by
    simp [Warehouse.enableDateBasedOptimizedEventTable, h1,
      one_le_dayjsDiffDay_iff]
  refine ⟨henable, ?_, ?_⟩
  · intro hc
    have he : Warehouse.enableDateBasedOptimizedEventTable et t = true :=
      henable.mpr hc
    constructor
    · simp [Warehouse.buildOptimizedDateRangeQuery, he, h1]
    · simp [Warehouse.buildOptimizedDateQuerySql, he, h1, h2]
  · intro hc
    have he : Warehouse.enableDateBasedOptimizedEventTable et t = false := by
      have hne : ¬ Warehouse.enableDateBasedOptimizedEventTable et t = true :=
        fun h => hc (henable.mp h)
      simpa using hne
    refine ⟨⟨(if et.createdAtFieldType = "timestamp" then toString (t.startAt / 1000)
        else if et.createdAtFieldType = "date" then formatYMD (startOfDayMs t.startAt)
        else if et.createdAtFieldType = "datetime" then formatYMDHMS t.startAt
        else toString t.startAt),
      (if et.createdAtFieldType = "timestamp" then toString (t.endAt / 1000)
        else if et.createdAtFieldType = "date" then formatYMD (endOfDayMs t.endAt)
        else if et.createdAtFieldType = "datetime" then formatYMDHMS t.endAt
        else toString t.endAt), ?_⟩, ?_⟩
    · simp [Warehouse.buildOptimizedDateRangeQuery, he]
    · simp [Warehouse.buildOptimizedDateQuerySql, he]

/-- Witness for C1 at the two-day fixture window. -/
theorem c1_date_based_optimization_witness :
    (Warehouse.enableDateBasedOptimizedEventTable et0 t0 = true ↔
      t0.startAt + msPerDay ≤ t0.endAt) ∧
    (t0.startAt + msPerDay ≤ t0.endAt →
      Warehouse.buildOptimizedDateRangeQuery et0 t0 =
        [.lit (quoteQualified et0.name "event_date"), .lit " BETWEEN ",
          .param (formatYMD (startOfDayMs t0.startAt)), .lit " AND ",
          .param (formatYMD (endOfDayMs t0.endAt))] ∧
      Warehouse.buildOptimizedDateQuerySql et0 t0 =
        .ok [.lit "DATE_FORMAT(", .lit (quoteQualified et0.name "event_date"),
          .lit ", '", .lit "%Y-%m-%d", .lit "') date"]) ∧
    (¬ t0.startAt + msPerDay ≤ t0.endAt →
      (∃ s e : String,
        Warehouse.buildOptimizedDateRangeQuery et0 t0 =
          [.lit (quoteQualified et0.name et0.createdAtField), .lit " BETWEEN ",
            .param s, .lit " AND ", .param e]) ∧
      Warehouse.buildOptimizedDateQuerySql et0 t0 =
        (Warehouse.getDateQuery (quoteQualified et0.name et0.createdAtField)
          t0.unit (t0.timezone.getD "UTC") et0.createdAtFieldType).map
          (fun s => s ++ [.lit " date"])) :=
  c1_date_based_optimization et0 "event_date" t0 "%Y-%m-%d" rfl rfl

/-- C3: on an undeclared time unit the optimized bucket path raises no
error: both builders return a `DATE_FORMAT` expression whose format is the
JS string `undefined`, while the non-optimized `getDateQuery` of either
builder does reject the same unit at compile time. -/
theorem c3_invalid_unit_code_bug :
    Warehouse.buildOptimizedDateQuerySql et0 tWeek =
      .ok [.lit "DATE_FORMAT(", .lit "\"events\".\"event_date\"", .lit ", '",
        .lit "undefined", .lit "') date"] ∧
    WideTable.buildOptimizedDateQuerySql app0 tWeek =
      .ok [.lit "DATE_FORMAT(", .lit "\"event_date\"", .lit ", '",
        .lit "undefined", .lit "') date"] ∧
    Warehouse.getDateQuery "\"events\".\"event_timestamp\"" "week" "UTC"
      "timestampMs" = .error "Invalid date unit: week" ∧
    WideTable.getDateQuery "\"events\".\"event_timestamp\"" "week" "UTC"
      "timestampMs" = .error "Invalid date unit: week" :=
  ⟨rfl, rfl, rfl, rfl⟩

/-- C9: a storage-encoding string outside the declared `dateTypeSchema` set
falls through both builders' `getDateQuery` to the `timestampMs` default
branch — no error, same expression as the milliseconds encoding. -/
theorem c9_unknown_encoding_fallback (ty : String)
    (hty : ty ∉ ["timestamp", "timestampMs", "date", "datetime"])
    (field unit timezone fmt : String)
    (hu : mysqlDateFormats unit = some fmt) :
    Warehouse.getDateQuery field unit timezone ty =
      Warehouse.getDateQuery field unit timezone "timestampMs" ∧
    Warehouse.getDateQuery field unit timezone ty =
      .ok [.lit "DATE_FORMAT(CONVERT_TZ(", .lit "FROM_UNIXTIME(", .lit field,
        .lit " / 1000)", .lit ", '+00:00', ", .param timezone, .lit "), '",
        .lit fmt, .lit "')"] ∧
    WideTable.getDateQuery field unit timezone ty =
      Warehouse.getDateQuery field unit timezone ty := by
  simp only [List.mem_cons, List.not_mem_nil, or_false, not_or] at hty
  obtain ⟨h1, h2, h3, h4⟩ := hty
  refine ⟨?_, ?_, ?_⟩ <;>
    simp [Warehouse.getDateQuery, WideTable.getDateQuery, hu, h1, h2, h3, h4]

/-- Witness for C9 at the undeclared encoding `weird`. -/
theorem c9_unknown_encoding_fallback_witness :
    Warehouse.getDateQuery "\"t\".\"c\"" "day" "UTC" "weird" =
      Warehouse.getDateQuery "\"t\".\"c\"" "day" "UTC" "timestampMs" ∧
    Warehouse.getDateQuery "\"t\".\"c\"" "day" "UTC" "weird" =
      .ok [.lit "DATE_FORMAT(CONVERT_TZ(", .lit "FROM_UNIXTIME(",
        .lit "\"t\".\"c\"", .lit " / 1000)", .lit ", '+00:00', ",
        .param "UTC", .lit "), '", .lit "%Y-%m-%d", .lit "')"] ∧
    WideTable.getDateQuery "\"t\".\"c\"" "day" "UTC" "weird" =
      Warehouse.getDateQuery "\"t\".\"c\"" "day" "UTC" "weird" :=
  c9_unknown_encoding_fallback "weird" (by decide) "\"t\".\"c\"" "day" "UTC"
    "%Y-%m-%d" rfl

/-- C2 counterexample: a `sessions` metric through the long-table builder's
select compiler yields no aggregate at all (`null`), not a distinct
count — refuting the claim for "every backend query builder variant". -/
theorem c2_sessions_counterexample :
    Warehouse.buildSelectQueryArr et0 [⟨"foo", "sessions"⟩] = [none] := rfl

/-- C2 amended: only the wide-table builder compiles `math=sessions` into a
distinct count of the schema-declared `distinctField` (CASE-restricted to
the metric-name column for a named metric, unrestricted for the
`$all_event` sentinel); the long-table builder maps every `sessions`
metric to `null`. -/
theorem c2_sessions_amended :
    (∀ (et : EventTable) (m : Metric), m.math = "sessions" →
      Warehouse.selectItem et m = none) ∧
    (∀ (app : WarehouseWideTableInsightsApplication) (m : Metric),
      m.math = "sessions" →
      WideTable.selectItem app m =
        some (if m.name = "$all_event" then
          [.lit "count(distinct \"", .lit app.distinctField,
            .lit "\") as \"$all_event\""]
        else
          [.lit "count(distinct case WHEN \"", .lit m.name, .lit "\" = ",
            .param m.name, .lit " THEN \"", .lit app.distinctField,
            .lit "\" END) as ", .lit ("\"" ++ m.name ++ "\"")])) := by
  constructor
  · intro et m hm
    simp [Warehouse.selectItem, hm]
  · intro app m hm
    by_cases hn : m.name = "$all_event" <;> simp [WideTable.selectItem, hm, hn]

/-- Witness for C2's amended claim at a named `sessions` metric. -/
theorem c2_sessions_amended_witness :
    Warehouse.selectItem et0 ⟨"foo", "sessions"⟩ = none ∧
    WideTable.selectItem app0 ⟨"foo", "sessions"⟩ =
      some [.lit "count(distinct case WHEN \"", .lit "foo", .lit "\" = ",
        .param "foo", .lit " THEN \"", .lit "user_id", .lit "\" END) as ",
        .lit "\"foo\""] :=
  ⟨c2_sessions_amended.1 et0 ⟨"foo", "sessions"⟩ rfl,
    by simpa using c2_sessions_amended.2 app0 ⟨"foo", "sessions"⟩ rfl⟩

/-- Claim-side rendering of an all-sentinel event-name disjunction: one
`1 = 1` per metric, OR-separated. -/
def allEventTautologyText : List Metric → String
  | [] => ""
  | [_] => "1 = 1"
  | _ :: rest => "1 = 1" ++ " OR " ++ allEventTautologyText rest

/-- The OR-join of all-`1 = 1` disjuncts renders to the tautology text and
binds no values. -/
theorem tautologyCore_render (metrics : List Metric) :
    sqlText (prismaJoinCore " OR "
        (metrics.map (fun _ => ([.lit "1 = 1"] : Sql)))) =
      allEventTautologyText metrics ∧
    sqlValues (prismaJoinCore " OR "
        (metrics.map (fun _ => ([.lit "1 = 1"] : Sql)))) = [] := by
  induction metrics with
  | nil => exact ⟨rfl, rfl⟩
  | cons m rest ih =>
    cases rest with
    | nil => exact ⟨rfl, rfl⟩
    | cons m2 r2 =>
      have hx := ih
      constructor
      · show sqlText (([.lit "1 = 1"] : Sql) ++ [.lit " OR "] ++
            prismaJoinCore " OR "
              ((m2 :: r2).map (fun _ => ([.lit "1 = 1"] : Sql)))) = _
        rw [sqlText_append, sqlText_append, hx.1]
        rfl
      · show sqlValues (([.lit "1 = 1"] : Sql) ++ [.lit " OR "] ++
            prismaJoinCore " OR "
              ((m2 :: r2).map (fun _ => ([.lit "1 = 1"] : Sql)))) = _
        rw [sqlValues_append, sqlValues_append, hx.2]
        rfl

/-- C4: when every requested metric is the `$all_event` sentinel (with
`math=events`), the long-table WHERE array is exactly the date-range
predicate plus an event-name disjunction whose every disjunct is the
literal `1 = 1`: it renders as `(1 = 1 OR ... OR 1 = 1)` with no bound
values, so no row inside the time range is excluded by event name. -/
theorem c4_all_event_tautology (et : EventTable) (t : TimeQuery)
    (metrics : List Metric)
    (hm : ∀ m ∈ metrics, m.name = "$all_event" ∧ m.math = "events") :
    Warehouse.buildWhereQueryArr et t metrics =
      [Warehouse.buildOptimizedDateRangeQuery et t,
        prismaJoin (metrics.map (fun _ => ([.lit "1 = 1"] : Sql)))
          " OR " "(" ")"] ∧
    sqlText (prismaJoin (metrics.map (fun _ => ([.lit "1 = 1"] : Sql)))
        " OR " "(" ")") = "(" ++ allEventTautologyText metrics ++ ")" ∧
    sqlValues (prismaJoin (metrics.map (fun _ => ([.lit "1 = 1"] : Sql)))
        " OR " "(" ")") = [] := by
  refine ⟨?_, ?_, ?_⟩
  · unfold Warehouse.buildWhereQueryArr
    have : metrics.map (Warehouse.eventNameDisjunct et) =
        metrics.map (fun _ => ([.lit "1 = 1"] : Sql)) := by
      apply List.map_congr_left
      intro m hmem
      simp [Warehouse.eventNameDisjunct, (hm m hmem).1]
    rw [this]
  · unfold prismaJoin
    rw [sqlText_append, sqlText_append, (tautologyCore_render metrics).1]
    simp [sqlText, String.append_assoc]
  · unfold prismaJoin
    rw [sqlValues_append, sqlValues_append, (tautologyCore_render metrics).2]
    rfl

/-- Witness for C4 at the singleton sentinel metric list of the builder
test file. -/
theorem c4_all_event_tautology_witness :
    Warehouse.buildWhereQueryArr et0 t0 [⟨"$all_event", "events"⟩] =
      [Warehouse.buildOptimizedDateRangeQuery et0 t0,
        prismaJoin (([⟨"$all_event", "events"⟩] : List Metric).map
          (fun _ => ([.lit "1 = 1"] : Sql))) " OR " "(" ")"] ∧
    sqlText (prismaJoin (([⟨"$all_event", "events"⟩] : List Metric).map
        (fun _ => ([.lit "1 = 1"] : Sql))) " OR " "(" ")") =
      "(" ++ allEventTautologyText [⟨"$all_event", "events"⟩] ++ ")" ∧
    sqlValues (prismaJoin (([⟨"$all_event", "events"⟩] : List Metric).map
        (fun _ => ([.lit "1 = 1"] : Sql))) " OR " "(" ")") = [] :=
  c4_all_event_tautology et0 t0 [⟨"$all_event", "events"⟩]
    (by
      intro m hm
      rw [List.mem_singleton] at hm
      subst hm
      exact ⟨rfl, rfl⟩)

/-- C7 counterexample: the long-table path's `getApplication` matches by
name only, so a configured application declared with the other sub-type
(`wideTable`) and the same name is returned. -/
theorem c7_lookup_counterexample :
    Warehouse.getApplication [whApp0] "test" = .ok whApp0 ∧
    whApp0.type = "wideTable" := ⟨rfl, rfl⟩

/-- C7 amended: the wide-table builder's lookup matches on both name and
the declared sub-type `wideTable`; the long-table path's
`WarehouseInsightsSqlBuilder.getApplication` matches on name alone, with
no guarantee about the returned application's sub-type. -/
theorem c7_lookup_amended :
    (∀ (apps : List WarehouseWideTableInsightsApplication) (n : String)
        (app : WarehouseWideTableInsightsApplication),
      WideTable.getApplication apps n = .ok app →
      app.name = n ∧ app.type = "wideTable") ∧
    (∀ (apps : List WarehouseInsightsApplication) (n : String)
        (app : WarehouseInsightsApplication),
      Warehouse.getApplication apps n = .ok app → app.name = n) := by
  constructor
  · intro apps n app h
    revert h
    unfold WideTable.getApplication
    cases hf : apps.find? (fun a => a.name == n && a.type == "wideTable") with
    | none => intro h; exact Except.noConfusion h
    | some a =>
      intro h
      injection h with h'
      subst h'
      have hp := List.find?_some hf
      simp only [Bool.and_eq_true, beq_iff_eq] at hp
      exact hp
  · intro apps n app h
    revert h
    unfold Warehouse.getApplication
    cases hf : apps.find? (fun a => a.name == n) with
    | none => intro h; exact Except.noConfusion h
    | some a =>
      intro h
      injection h with h'
      subst h'
      have hp := List.find?_some hf
      simpa using hp

/-- Witness for C7's amended claim at the wide-table fixture. -/
theorem c7_lookup_amended_witness :
    app0.name = "wide" ∧ app0.type = "wideTable" :=
  c7_lookup_amended.1 [app0] "wide" app0 rfl

/-- C8: after a first successful call has populated the module cache, any
further sequence of `getWarehouseApplications` calls — even with different
configuration strings or parse functions — returns the identical cached
list, leaves the cache untouched, and never parses again (the parse count
stays at one). -/
theorem c8_parse_once_cache
    (parse : String → Except String (List WarehouseInsightsApplication))
    (config : String) (apps : List WarehouseInsightsApplication)
    (hp : parse config = .ok apps)
    (calls : List ((String → Except String (List WarehouseInsightsApplication))
      × String)) :
    getWarehouseApplications parse config ⟨none, 0⟩ =
      (.ok apps, ⟨some apps, 1⟩) ∧
    runWarehouseApplicationCalls calls ⟨some apps, 1⟩ =
      (calls.map (fun _ => .ok apps), ⟨some apps, 1⟩) := by
  constructor
  · simp [getWarehouseApplications, hp]
  · induction calls with
    | nil => rfl
    | cons c rest ih =>
      simp [runWarehouseApplicationCalls, getWarehouseApplications, ih]

/-- Witness for C8: a successful first parse followed by two further calls,
the second of which would even fail if it were re-parsed. -/
theorem c8_parse_once_cache_witness :
    getWarehouseApplications (fun _ => .ok []) "cfg" ⟨none, 0⟩ =
      (.ok [], ⟨some [], 1⟩) ∧
    runWarehouseApplicationCalls
      [(fun _ => .ok [], "cfg"), (fun _ => .error "bad", "other")]
      ⟨some [], 1⟩ =
      ([.ok [], .ok []], ⟨some [], 1⟩) :=
  c8_parse_once_cache (fun _ => .ok []) "cfg" [] rfl
    [(fun _ => .ok [], "cfg"), (fun _ => .error "bad", "other")]

/-- C10: `queryWarehouseEvents` routes to the wide-table builder exactly
when the insight id resolves to an application whose declared sub-type is
`wideTable`; an unresolved id, or one resolving to any other sub-type,
dispatches to the long-table builder without failing. -/
theorem c10_events_dispatch :
    (∀ (apps : List WarehouseWideTableInsightsApplication) (id : String),
      findWarehouseApplication apps id = none →
      queryWarehouseEvents apps id = .longTable) ∧
    (∀ (apps : List WarehouseWideTableInsightsApplication) (id : String)
        (app : WarehouseWideTableInsightsApplication),
      findWarehouseApplication apps id = some app →
      app.type ≠ "wideTable" →
      queryWarehouseEvents apps id = .longTable) ∧
    (∀ (apps : List WarehouseWideTableInsightsApplication) (id : String),
      queryWarehouseEvents apps id = .wideTable →
      ∃ app, findWarehouseApplication apps id = some app ∧
        app.type = "wideTable") := by
  refine ⟨?_, ?_, ?_⟩
  · intro apps id h
    simp [queryWarehouseEvents, h]
  · intro apps id app h hne
    simp [queryWarehouseEvents, h, hne]
  · intro apps id
    unfold queryWarehouseEvents
    cases hf : findWarehouseApplication apps id with
    | none => intro h; exact absurd h (by simp)
    | some app =>
      by_cases ht : app.type = "wideTable"
      · intro _
        exact ⟨app, hf ▸ rfl, ht⟩
      · intro h
        exact absurd h (by simp [ht])

/-- Witness for C10: the empty registry resolves nothing, and dispatch goes
to the long-table builder. -/
theorem c10_events_dispatch_witness :
    queryWarehouseEvents [] "missing" = .longTable :=
  c10_events_dispatch.1 [] "missing" rfl

/-- The decoded alias of a projection fragment ending in the three template
pieces `as "%`, raw body, closing quote is the percent-prefixed body,
whatever predicate precedes it. -/
theorem aliasOf_append3 (p : Sql) (a b c : String) :
    aliasOf (p ++ [.lit a, .lit b, .lit c]) = "%" ++ b := by
  simp [aliasOf, List.reverse_append]

/-- Aliases of the long-table custom-group projections, per entry. -/
theorem wh_customCols_aliases (ept : EventParametersTable) (g : GroupInfo)
    (cgs : List CustomGroup) :
    ∀ res : List Sql, Warehouse.customCols ept g cgs = .ok res →
      res.map aliasOf = cgs.map (fun cg =>
        "%" ++ (g.value ++ "|" ++ cg.filterOperator ++ "|" ++
          cg.filterValue)) := by
  induction cgs with
  | nil =>
    intro res h
    simp only [Warehouse.customCols, Except.ok.injEq] at h
    subst h
    rfl
  | cons cg rest ih =>
    intro res h
    revert h
    unfold Warehouse.customCols
    cases hb : Warehouse.buildFilterQueryOperator ept g.type cg.filterOperator
        cg.filterValue with
    | error e => intro h; exact Except.noConfusion h
    | ok pred =>
      cases hr : Warehouse.customCols ept g rest with
      | error e => intro h; exact Except.noConfusion h
      | ok tail =>
        intro h
        injection h with h'
        subst h'
        simp [aliasOf_append3, ih tail hr]

/-- Aliases of the long-table group projections follow the §3 convention. -/
theorem wh_groupSelect_aliases (ept : EventParametersTable)
    (groups : List GroupInfo) :
    ∀ res : List Sql, Warehouse.buildGroupSelectQueryArr ept groups = .ok res →
      res.map aliasOf = groupAliases groups := by
  induction groups with
  | nil =>
    intro res h
    simp only [Warehouse.buildGroupSelectQueryArr, Except.ok.injEq] at h
    subst h
    rfl
  | cons g rest ih =>
    intro res h
    unfold Warehouse.buildGroupSelectQueryArr at h
    cases hcg : g.customGroups with
    | none =>
      cases hr : Warehouse.buildGroupSelectQueryArr ept rest with
      | error e => simp [hcg, hr] at h
      | ok tail =>
        simp only [hcg, hr, Except.ok.injEq] at h
        subst h
        simp [groupAliases, hcg, aliasOf_append3, ih tail hr]
    | some cgs =>
      cases hc : Warehouse.customCols ept g cgs with
      | error e => simp [hcg, hc] at h
      | ok cols =>
        cases hr : Warehouse.buildGroupSelectQueryArr ept rest with
        | error e => simp [hcg, hc, hr] at h
        | ok tail =>
          simp only [hcg, hc, hr, Except.ok.injEq] at h
          subst h
          simp [groupAliases, hcg, ih tail hr, String.append_assoc,
            wh_customCols_aliases ept g cgs cols hc]

/-- Aliases of the wide-table custom-group projections, per entry. -/
theorem wt_customCols_aliases (g : GroupInfo) (cgs : List CustomGroup) :
    ∀ res : List Sql, WideTable.customCols g cgs = .ok res →
      res.map aliasOf = cgs.map (fun cg =>
        "%" ++ (g.value ++ "|" ++ cg.filterOperator ++ "|" ++
          cg.filterValue)) := by
  induction cgs with
  | nil =>
    intro res h
    simp only [WideTable.customCols, Except.ok.injEq] at h
    subst h
    rfl
  | cons cg rest ih =>
    intro res h
    revert h
    unfold WideTable.customCols
    cases hb : buildCommonFilterQueryOperator g.type cg.filterOperator
        cg.filterValue [.lit ("\"" ++ g.value ++ "\"")] with
    | error e => intro h; exact Except.noConfusion h
    | ok pred =>
      cases hr : WideTable.customCols g rest with
      | error e => intro h; exact Except.noConfusion h
      | ok tail =>
        intro h
        injection h with h'
        subst h'
        simp [aliasOf_append3, ih tail hr]

/-- Aliases of the wide-table group projections follow the §3 convention. -/
theorem wt_groupSelect_aliases (groups : List GroupInfo) :
    ∀ res : List Sql, WideTable.buildGroupSelectQueryArr groups = .ok res →
      res.map aliasOf = groupAliases groups := by
  induction groups with
  | nil =>
    intro res h
    simp only [WideTable.buildGroupSelectQueryArr, Except.ok.injEq] at h
    subst h
    rfl
  | cons g rest ih =>
    intro res h
    unfold WideTable.buildGroupSelectQueryArr at h
    cases hcg : g.customGroups with
    | none =>
      cases hr : WideTable.buildGroupSelectQueryArr rest with
      | error e => simp [hcg, hr] at h
      | ok tail =>
        simp only [hcg, hr, Except.ok.injEq] at h
        subst h
        simp [groupAliases, hcg, aliasOf, ih tail hr]
    | some cgs =>
      cases hc : WideTable.customCols g cgs with
      | error e => simp [hcg, hc] at h
      | ok cols =>
        cases hr : WideTable.buildGroupSelectQueryArr rest with
        | error e => simp [hcg, hc, hr] at h
        | ok tail =>
          simp only [hcg, hc, hr, Except.ok.injEq] at h
          subst h
          simp [groupAliases, hcg, ih tail hr, String.append_assoc,
            wt_customCols_aliases g cgs cols hc]

/-- Every alias of the §3 convention carries the percent prefix. -/
theorem groupAliases_percent (groups : List GroupInfo) :
    ∀ a ∈ groupAliases groups, ∃ r, a = "%" ++ r := by
  induction groups with
  | nil => intro a ha; simp [groupAliases] at ha
  | cons g rest ih =>
    intro a ha
    cases hcg : g.customGroups with
    | none =>
      simp [groupAliases, hcg] at ha
      rcases ha with h | h
      · exact ⟨g.value, h⟩
      · exact ih a h
    | some cgs =>
      simp [groupAliases, hcg] at ha
      rcases ha with ⟨cg, _, h⟩ | h
      · exact ⟨_, h.symm⟩
      · exact ih a h

/-- C5: every group-derived column of either builder carries a
percent-prefixed alias; a group without `customGroups` is aliased
`%value`, and each `customGroups` entry yields its own column aliased
`%value|operator|filterValue`. -/
theorem c5_group_alias_convention (ept : EventParametersTable)
    (groups : List GroupInfo) :
    (∀ res : List Sql, Warehouse.buildGroupSelectQueryArr ept groups = .ok res →
      res.map aliasOf = groupAliases groups) ∧
    (∀ res : List Sql, WideTable.buildGroupSelectQueryArr groups = .ok res →
      res.map aliasOf = groupAliases groups) ∧
    (∀ a ∈ groupAliases groups, ∃ r, a = "%" ++ r) :=
  ⟨wh_groupSelect_aliases ept groups, wt_groupSelect_aliases groups,
    groupAliases_percent groups⟩

/-- A plain group and a composite group fixture list used to exercise the
alias convention. -/
def gs5 : List GroupInfo :=
  [⟨"country", "string", none⟩, ⟨"plan", "string", some [⟨"equals", "pro"⟩]⟩]

/-- The compiled long-table group projections for `gs5`. -/
def gs5res : List Sql :=
  [[.lit "\"event_parameters\".\"event_param_value\"", .lit " as \"%",
    .lit "country", .lit "\""],
   [.lit "\"event_parameters\".\"event_param_value\"", .lit " = ",
    .param "pro", .lit " as \"%", .lit "plan|equals|pro", .lit "\""]]

/-- Witness for C5 at the `gs5` fixture. -/
theorem c5_group_alias_convention_witness :
    gs5res.map aliasOf = groupAliases gs5 ∧ (∃ r, "%country" = "%" ++ r) :=
  ⟨(c5_group_alias_convention ept0 gs5).1 gs5res rfl,
    (c5_group_alias_convention ept0 gs5).2.2 "%country" (by decide)⟩

/-- A plain group whose user-supplied value embeds the pipe delimiter. -/
def gs6a : List GroupInfo := [⟨"a|equals|y", "string", none⟩]

/-- A genuinely composite group over value `a` with operator `equals` and
literal `y`. -/
def gs6b : List GroupInfo := [⟨"a", "string", some [⟨"equals", "y"⟩]⟩]

/-- C6 counterexample: the builder neither escapes nor rejects a group
value containing the pipe delimiter — the plain group `a|equals|y` and the
composite group `(a, equals, y)` compile to the identical alias
`%a|equals|y`, so decoding that alias splits on delimiters that came from
user data. -/
theorem c6_delimiter_counterexample :
    (Warehouse.buildGroupSelectQueryArr ept0 gs6a).map
      (fun l => l.map aliasOf) = .ok ["%a|equals|y"] ∧
    (Warehouse.buildGroupSelectQueryArr ept0 gs6b).map
      (fun l => l.map aliasOf) = .ok ["%a|equals|y"] ∧
    gs6a ≠ gs6b :=
  ⟨rfl, rfl, by decide⟩

/-- C6 amended: no escaping or rejection is performed anywhere — both
builders interpolate the user-supplied group value and custom filter
operator/value verbatim after the reserved `%` prefix, pipe and percent
characters included, so alias decoding can split on delimiters originating
in user data. -/
theorem c6_delimiter_amended :
    (∀ (ept : EventParametersTable) (ty v : String),
      (Warehouse.buildGroupSelectQueryArr ept [⟨v, ty, none⟩]).map
        (fun l => l.map aliasOf) = .ok ["%" ++ v]) ∧
    (∀ ty v : String,
      (WideTable.buildGroupSelectQueryArr [⟨v, ty, none⟩]).map
        (fun l => l.map aliasOf) = .ok ["%" ++ v]) ∧
    (∀ (ept : EventParametersTable) (ty v op w : String) (pred : Sql),
      Warehouse.buildFilterQueryOperator ept ty op w = .ok pred →
      (Warehouse.buildGroupSelectQueryArr ept [⟨v, ty, some [⟨op, w⟩]⟩]).map
        (fun l => l.map aliasOf) = .ok ["%" ++ (v ++ "|" ++ op ++ "|" ++ w)]) ∧
    (∀ (ty v op w : String) (pred : Sql),
      buildCommonFilterQueryOperator ty op w [.lit ("\"" ++ v ++ "\"")] =
        .ok pred →
      (WideTable.buildGroupSelectQueryArr [⟨v, ty, some [⟨op, w⟩]⟩]).map
        (fun l => l.map aliasOf) = .ok ["%" ++ (v ++ "|" ++ op ++ "|" ++ w)]) := by
  refine ⟨?_, ?_, ?_, ?_⟩
  · intro ept ty v
    simp [Warehouse.buildGroupSelectQueryArr, Except.map, aliasOf_append3]
  · intro ty v
    simp [WideTable.buildGroupSelectQueryArr, Except.map, aliasOf]
  · intro ept ty v op w pred hb
    simp [Warehouse.buildGroupSelectQueryArr, Warehouse.customCols, hb,
      Except.map, aliasOf_append3]
  · intro ty v op w pred hb
    simp [WideTable.buildGroupSelectQueryArr, WideTable.customCols, hb,
      Except.map, aliasOf_append3]

/-- Witness for C6's amended claim: a pipe-bearing plain value is embedded
verbatim, and a composite entry concatenates with bare pipes. -/
theorem c6_delimiter_amended_witness :
    (Warehouse.buildGroupSelectQueryArr ept0 [⟨"a|b", "string", none⟩]).map
      (fun l => l.map aliasOf) = .ok ["%" ++ "a|b"] ∧
    (Warehouse.buildGroupSelectQueryArr ept0
        [⟨"a", "string", some [⟨"equals", "y"⟩]⟩]).map
      (fun l => l.map aliasOf) =
      .ok ["%" ++ ("a" ++ "|" ++ "equals" ++ "|" ++ "y")] :=
  ⟨c6_delimiter_amended.1 ept0 "string" "a|b",
    c6_delimiter_amended.2.2.1 ept0 "string" "a" "equals" "y"
      [.lit "\"event_parameters\".\"event_param_value\"", .lit " = ",
        .param "y"] rfl⟩
